import Mathlib

/-!
Verification of the resilient streaming call pipeline of the modelfusion
client library: the validated event reader (readEventSourceStream), the
reader-to-iterator conversion (convertReadableStreamToAsyncIterator), and
the Cohere text embedding model (callAPI guard and withSettings).

Embedding notes. readEventSourceStream (src/browser/readEventSourceStream.ts)
is modelled on one terminated run of its event source: the source either
fails during setup (the parseEventSourceStream promise rejects), or yields a
finite list of SSE frames and then either ends normally or throws. The
collaborators AsyncQueue, parseEventSourceStream and safeParseJSON are not
present under src; where their behavior matters they are modelled from the
spec and marked as such in their doc comments. The schema boundary is kept
pluggable: safeParseJSON with the caller schema is abstracted to a function
from the data payload to a success-or-failure result.
-/

set_option autoImplicit false

namespace ModelFusion

variable {T E : Type}

/-- Result of safeParseJSON: either a successfully parsed and
schema-validated value, or a failure detail. Mirrors the success/error
discriminated union that the code inspects via validationResult.success. -/
inductive ParseResult (T E : Type) where
  | success (data : T)
  | failure (error : E)
  deriving Repr, DecidableEq

/-- Modelled from the spec: an SSE frame as produced by
parseEventSourceStream (src/util/streaming/parseEventSourceStream.ts is not
under src): event, data, id and retryMs fields (spec section 3).
readEventSourceStream consumes only the data field. -/
structure SSEFrame where
  event : Option String
  data : String
  id : Option String
  retryMs : Option Nat
  deriving Repr, DecidableEq

/-- Build a frame carrying only a data payload. -/
def dataFrame (d : String) : SSEFrame :=
  { event := none, data := d, id := none, retryMs := none }

/-- Terminal state of an AsyncQueue: open, closed, or closed in an error
state. -/
inductive QueueState (E : Type) where
  | opened
  | closed
  | closedWithError (error : E)
  deriving Repr, DecidableEq

/-- Modelled from the spec: AsyncQueue (spec section 4.1;
src/util/AsyncQueue.ts is not under src): an order-preserving closeable
queue holding the pending items and a terminal state. -/
structure AsyncQueue (T E : Type) where
  items : List T
  state : QueueState E
  deriving Repr, DecidableEq

/-- A fresh, open, empty queue. -/
def AsyncQueue.new (T E : Type) : AsyncQueue T E :=
  { items := [], state := QueueState.opened }

/-- Modelled from the spec: push appends to the tail while the queue is
open. A push on a closed queue raises QueueClosedError in the source; that
branch is never reached by readEventSourceStream, whose producer closes the
queue only after its loop has ended, and the model leaves the queue
unchanged there. -/
def AsyncQueue.push (q : AsyncQueue T E) (item : T) : AsyncQueue T E :=
  match q.state with
  | QueueState.opened => { q with items := q.items ++ [item] }
  | _ => q

/-- Modelled from the spec: close marks no-more-items; already queued items
are kept for delivery; idempotent. -/
def AsyncQueue.close (q : AsyncQueue T E) : AsyncQueue T E :=
  match q.state with
  | QueueState.opened => { q with state := QueueState.closed }
  | _ => q

/-- Terminal signal the consumer observes after the buffered items. -/
inductive TerminalSignal (E : Type) where
  | endOfSequence
  | errorSignal (error : E)
  deriving Repr, DecidableEq

/-- Modelled from the spec: a consumer iterating a terminated queue receives
every buffered item in push order and then the terminal signal; an error
close discards pending items (spec section 4.1). On a still-open queue the
consumer would suspend, which the model renders as none. -/
def AsyncQueue.drain (q : AsyncQueue T E) : Option (List T × TerminalSignal E) :=
  match q.state with
  | QueueState.opened => none
  | QueueState.closed => some (q.items, TerminalSignal.endOfSequence)
  | QueueState.closedWithError e => some ([], TerminalSignal.errorSignal e)

/-- Outcome of iterating the SSE frame sequence: the iteration either
completes normally or throws after the listed frames were yielded. -/
inductive StreamOutcome (E : Type) where
  | done
  | failed (error : E)
  deriving Repr, DecidableEq

/-- One terminated run of the event source feeding readEventSourceStream:
either the parseEventSourceStream setup promise rejects, or it yields a
finite list of frames followed by an outcome. -/
inductive SSESource (E : Type) where
  | setupFailed (error : E)
  | events (frames : List SSEFrame) (outcome : StreamOutcome E)
  deriving Repr, DecidableEq

/-- Observable result of one run of readEventSourceStream: the final output
queue and the arguments passed to the error handler, in call order. -/
structure ReadRun (T E : Type) where
  queue : AsyncQueue T E
  handlerCalls : List E
  deriving Repr, DecidableEq

/-- The for-await loop of readEventSourceStream: for each frame, parse the
data field with safeParseJSON; on failure record the error for the handler
and continue with the next frame; on success push the value onto the
queue. -/
def readLoop (safeParse : String → ParseResult T E) :
    List SSEFrame → AsyncQueue T E → List E → AsyncQueue T E × List E
  | [], q, errs => (q, errs)
  | frame :: rest, q, errs =>
    match safeParse frame.data with
    | ParseResult.success d => readLoop safeParse rest (q.push d) errs
    | ParseResult.failure e => readLoop safeParse rest q (errs ++ [e])

/-- Shallow embedding of readEventSourceStream
(src/browser/readEventSourceStream.ts) applied to one terminated source
trace. hasHandler records whether the optional errorHandler argument was
supplied; when it is absent the optional-chaining call does nothing, so no
handler call is recorded. On a setup failure the catch branch reports the
error and closes the queue; otherwise the loop runs over the yielded
frames, a thrown iteration error is reported by the catch block, and the
finally block closes the queue. -/
def readEventSourceStream (safeParse : String → ParseResult T E)
    (hasHandler : Bool) (src : SSESource E) : ReadRun T E :=
  match src with
  | SSESource.setupFailed e =>
    { queue := (AsyncQueue.new T E).close
      handlerCalls := if hasHandler then [e] else [] }
  | SSESource.events frames outcome =>
    let r := readLoop safeParse frames (AsyncQueue.new T E) []
    match outcome with
    | StreamOutcome.done =>
      { queue := r.1.close
        handlerCalls := if hasHandler then r.2 else [] }
    | StreamOutcome.failed e =>
      { queue := r.1.close
        handlerCalls := if hasHandler then r.2 ++ [e] else [] }

/-- The data payloads of the frames that parse successfully, in source
order. -/
def successes (safeParse : String → ParseResult T E) (frames : List SSEFrame) : List T :=
  frames.filterMap fun f =>
    match safeParse f.data with
    | ParseResult.success d => some d
    | ParseResult.failure _ => none

/-- The failure details of the frames that fail to parse, in source
order. -/
def failures (safeParse : String → ParseResult T E) (frames : List SSEFrame) : List E :=
  frames.filterMap fun f =>
    match safeParse f.data with
    | ParseResult.success _ => none
    | ParseResult.failure e => some e

def lbraceChar : Char := Char.ofNat 123

def rbraceChar : Char := Char.ofNat 125

def quoteChar : Char := Char.ofNat 34

def colonChar : Char := Char.ofNat 58

/-- Numeric value of a list of decimal digit characters. -/
def digitsToNat (ds : List Char) : Nat :=
  ds.foldl (fun n c => 10 * n + (c.toNat - 48)) 0

/-- Modelled from the spec: safeParseJSON (src/core/schema/parseJSON.ts is
not under src) specialised to the schema of the example in spec section 8,
a single-key JSON object with a numeric value: the text must be a brace,
a double-quoted key, a colon, a decimal number and a closing brace. Any
other text is a parse failure whose detail names the offending payload. -/
def parseKeyNatObject (text : String) : ParseResult (String × Nat) String :=
  match text.toList with
  | c0 :: c1 :: rest =>
    if c0 = lbraceChar then
      if c1 = quoteChar then
        let key := rest.takeWhile (fun ch => ch ≠ quoteChar)
        match rest.dropWhile (fun ch => ch ≠ quoteChar) with
        | _q :: c2 :: afterColon =>
          if c2 = colonChar then
            let digits := afterColon.takeWhile Char.isDigit
            match afterColon.dropWhile Char.isDigit with
            | [c3] =>
              if c3 = rbraceChar then
                if digits.isEmpty then
                  ParseResult.failure ("invalid JSON: " ++ text)
                else
                  ParseResult.success (String.mk key, digitsToNat digits)
              else ParseResult.failure ("invalid JSON: " ++ text)
            | _ => ParseResult.failure ("invalid JSON: " ++ text)
          else ParseResult.failure ("invalid JSON: " ++ text)
        | _ => ParseResult.failure ("invalid JSON: " ++ text)
      else ParseResult.failure ("invalid JSON: " ++ text)
    else ParseResult.failure ("invalid JSON: " ++ text)
  | _ => ParseResult.failure ("invalid JSON: " ++ text)

/-- The valid JSON payload of the example in spec section 8. -/
def jsonX1 : String := "\x7b\"x\":1\x7d"

/-- One result of a call to reader.read(): a chunk carrying a value, or the
done signal. -/
inductive ReadResult (T : Type) where
  | chunk (value : T)
  | done
  deriving Repr, DecidableEq

/-- Shallow embedding of convertReadableStreamToAsyncIterator
(src/util/convertReadableStreamToAsyncIterator.ts). The reader is the
sequence of results its successive read() calls return. The loop awaits a
read, stops at a done result, and otherwise yields the value and continues;
the second component counts the read() calls the loop performs, making the
single forward pass observable. -/
def convertReadableStreamToAsyncIterator :
    List (ReadResult T) → List T × Nat
  | [] => ([], 0)
  | ReadResult.done :: _ => ([], 1)
  | ReadResult.chunk v :: rest =>
    let r := convertReadableStreamToAsyncIterator rest
    (v :: r.1, r.2 + 1)

/-- Counts of wrapper and network invocations observed during one callAPI
run: how often the retry wrapper, the throttle wrapper and the underlying
network call callCohereEmbeddingAPI were entered. -/
structure ApiCallTrace where
  retryInvocations : Nat
  throttleInvocations : Nat
  networkCalls : Nat
  deriving Repr, DecidableEq

/-- The maxTextsPerCall field of CohereTextEmbeddingModel. -/
def maxTextsPerCall : Nat := 96

/-- The message of the error thrown when too many texts are passed. -/
def cohereMaxTextsError : String :=
  "The Cohere embedding API only supports " ++ toString maxTextsPerCall
    ++ " texts per API call."

/-- Shallow embedding of CohereTextEmbeddingModel.callAPI
(src/model-provider/cohere/CohereTextEmbeddingModel.ts): if the texts array
exceeds maxTextsPerCall, the error is thrown before anything else runs;
otherwise the retry wrapper is entered once, it enters the throttle wrapper
once, and the throttle wrapper performs the network call. The bodies of the
retry and throttle wrappers are outside this function; the embedding
records how often each is entered. -/
def callAPI (texts : List String) : Except String Unit × ApiCallTrace :=
  if texts.length > maxTextsPerCall then
    (Except.error cohereMaxTextsError,
     { retryInvocations := 0, throttleInvocations := 0, networkCalls := 0 })
  else
    (Except.ok (),
     { retryInvocations := 1, throttleInvocations := 1, networkCalls := 1 })

/-- The three Cohere text embedding model names of
COHERE_TEXT_EMBEDDING_MODELS. -/
inductive CohereTextEmbeddingModelType where
  | embedEnglishLightV20
  | embedEnglishV20
  | embedMultilingualV20
  deriving Repr, DecidableEq

/-- The maxTokens entry of COHERE_TEXT_EMBEDDING_MODELS. -/
def modelMaxTokens : CohereTextEmbeddingModelType → Nat
  | CohereTextEmbeddingModelType.embedEnglishLightV20 => 4096
  | CohereTextEmbeddingModelType.embedEnglishV20 => 4096
  | CohereTextEmbeddingModelType.embedMultilingualV20 => 4096

/-- The embeddingDimensions entry of COHERE_TEXT_EMBEDDING_MODELS. -/
def modelEmbeddingDimensions : CohereTextEmbeddingModelType → Nat
  | CohereTextEmbeddingModelType.embedEnglishLightV20 => 1024
  | CohereTextEmbeddingModelType.embedEnglishV20 => 4096
  | CohereTextEmbeddingModelType.embedMultilingualV20 => 768

/-- The truncate setting values NONE, START and END. -/
inductive TruncateSetting where
  | NONE
  | START
  | END
  deriving Repr, DecidableEq

/-- CohereTextEmbeddingModelSettings: the model name plus the optional
plain-data settings. The function-valued settings retry and throttle are
omitted from the embedding; Object.assign treats every key uniformly, so
the merge behavior proved below is keywise and covers them alike. -/
structure CohereTextEmbeddingModelSettings where
  model : CohereTextEmbeddingModelType
  baseUrl : Option String
  apiKey : Option String
  truncate : Option TruncateSetting
  deriving Repr, DecidableEq

/-- A partial settings object, the argument of withSettings: for each key,
none means the key is absent from the object, and some v means the key is
present with value v, so that Object.assign lets it override the current
value. -/
structure CohereSettingsUpdate where
  model : Option CohereTextEmbeddingModelType
  baseUrl : Option (Option String)
  apiKey : Option (Option String)
  truncate : Option (Option TruncateSetting)
  deriving Repr, DecidableEq

/-- Object.assign of the empty object, the current settings and the update
object: every key present in the update wins; every other key keeps the
current value. -/
def objectAssign (s : CohereTextEmbeddingModelSettings)
    (u : CohereSettingsUpdate) : CohereTextEmbeddingModelSettings :=
  { model := u.model.getD s.model
    baseUrl := u.baseUrl.getD s.baseUrl
    apiKey := u.apiKey.getD s.apiKey
    truncate := u.truncate.getD s.truncate }

/-- The message of the error the private apiKey getter throws when no API
key is resolvable. -/
def cohereNoApiKeyError : String :=
  "No Cohere API key provided. Pass an API key to the constructor or set the COHERE_API_KEY environment variable."

/-- The resolution step of the private apiKey getter: the apiKey of the
settings if present, otherwise the COHERE_API_KEY environment variable
(env); none means the getter throws. -/
def resolveApiKey (env : Option String)
    (s : CohereTextEmbeddingModelSettings) : Option String :=
  match s.apiKey with
  | some k => some k
  | none => env

/-- The CohereTextEmbeddingModel state relevant to withSettings: the stored
settings, the fields the constructor derives from the model name, and the
API key the constructor resolved while building the tokenizer. -/
structure CohereTextEmbeddingModel where
  settings : CohereTextEmbeddingModelSettings
  maxTokens : Nat
  embeddingDimensions : Nat
  tokenizerApiKey : String
  deriving Repr, DecidableEq

/-- The constructor of CohereTextEmbeddingModel: while building the
tokenizer it evaluates the private apiKey getter, which throws the
no-API-key error when the settings carry no apiKey and the COHERE_API_KEY
environment variable (env) is not set; otherwise it stores the settings
and derives maxTokens and embeddingDimensions from the model name via
COHERE_TEXT_EMBEDDING_MODELS. -/
def CohereTextEmbeddingModel.make (env : Option String)
    (settings : CohereTextEmbeddingModelSettings) :
    Except String CohereTextEmbeddingModel :=
  match resolveApiKey env settings with
  | none => Except.error cohereNoApiKeyError
  | some k =>
    Except.ok
      { settings := settings
        maxTokens := modelMaxTokens settings.model
        embeddingDimensions := modelEmbeddingDimensions settings.model
        tokenizerApiKey := k }

/-- Shallow embedding of CohereTextEmbeddingModel.withSettings: runs the
constructor on the Object.assign merge of the current settings with the
additional settings, so it throws exactly when the constructor does; the
receiver is not modified (the embedding is a pure function of the
receiver). -/
def CohereTextEmbeddingModel.withSettings (env : Option String)
    (m : CohereTextEmbeddingModel) (additionalSettings : CohereSettingsUpdate) :
    Except String CohereTextEmbeddingModel :=
  CohereTextEmbeddingModel.make env (objectAssign m.settings additionalSettings)

/-- The settings of the concrete model used to exercise withSettings: the
API key is supplied through the settings, not the environment. -/
def exampleSettings : CohereTextEmbeddingModelSettings :=
  { model := CohereTextEmbeddingModelType.embedEnglishLightV20
    baseUrl := none
    apiKey := some "key0"
    truncate := none }

/-- A concrete constructed model: the result of the constructor on
exampleSettings with no COHERE_API_KEY in the environment. -/
def exampleModel : CohereTextEmbeddingModel :=
  { settings := exampleSettings
    maxTokens := 4096
    embeddingDimensions := 1024
    tokenizerApiKey := "key0" }

/-- A concrete update whose apiKey key is present with a defined value. -/
def exampleUpdate : CohereSettingsUpdate :=
  { model := none
    baseUrl := none
    apiKey := some (some "key1")
    truncate := none }

theorem readLoop_eq (safeParse : String → ParseResult T E) :
    ∀ (frames : List SSEFrame) (items : List T) (errs : List E),
    readLoop safeParse frames ⟨items, QueueState.opened⟩ errs
      = (⟨items ++ successes safeParse frames, QueueState.opened⟩,
         errs ++ failures safeParse frames) := by
  intro frames
  induction frames with
  | nil => intro items errs; simp [readLoop, successes, failures]
  | cons f rest ih =>
    intro items errs
    cases hp : safeParse f.data with
    | success d =>
      simp [readLoop, hp, AsyncQueue.push, successes, failures,
        List.filterMap_cons, ih]
    | failure e =>
      simp [readLoop, hp, successes, failures, List.filterMap_cons, ih]

theorem read_events_done_eq (safeParse : String → ParseResult T E)
    (frames : List SSEFrame) (hasHandler : Bool) :
    readEventSourceStream safeParse hasHandler (SSESource.events frames StreamOutcome.done)
      = { queue := ⟨successes safeParse frames, QueueState.closed⟩
          handlerCalls := if hasHandler then failures safeParse frames else [] } := by
  simp [readEventSourceStream, AsyncQueue.new, readLoop_eq, AsyncQueue.close]

theorem read_events_failed_eq (safeParse : String → ParseResult T E)
    (frames : List SSEFrame) (hasHandler : Bool) (e : E) :
    readEventSourceStream safeParse hasHandler (SSESource.events frames (StreamOutcome.failed e))
      = { queue := ⟨successes safeParse frames, QueueState.closed⟩
          handlerCalls := if hasHandler then failures safeParse frames ++ [e] else [] } := by
  simp [readEventSourceStream, AsyncQueue.new, readLoop_eq, AsyncQueue.close]

/-- C1: a frame whose data fails JSON parsing or schema validation is
reported to the caller-supplied error handler with the failure detail,
contributes nothing to the output queue, and the frames after it are still
processed: the handler calls are the failure details in source order with
the given failure among them, and the queue items are the successes of the
surrounding frames, those after the failing frame included. -/
theorem readEventSourceStream_invalid_frame_skipped
    (safeParse : String → ParseResult T E) (pre post : List SSEFrame)
    (frame : SSEFrame) (e : E)
    (h : safeParse frame.data = ParseResult.failure e) :
    (readEventSourceStream safeParse true
        (SSESource.events (pre ++ frame :: post) StreamOutcome.done)).handlerCalls
      = failures safeParse pre ++ e :: failures safeParse post
    ∧ (readEventSourceStream safeParse true
        (SSESource.events (pre ++ frame :: post) StreamOutcome.done)).queue.items
      = successes safeParse pre ++ successes safeParse post := by
  rw [read_events_done_eq]
  constructor
  · simp [failures, List.filterMap_append, List.filterMap_cons, h]
  · simp [successes, List.filterMap_append, List.filterMap_cons, h]

/-- Witness for C1 at a concrete input: a malformed frame followed by a
valid frame; the malformed frame is reported and skipped and the valid
frame after it is still delivered. -/
theorem readEventSourceStream_invalid_frame_skipped_witness :
    parseKeyNatObject (dataFrame "not-json").data
      = ParseResult.failure "invalid JSON: not-json"
    ∧ ((readEventSourceStream parseKeyNatObject true
          (SSESource.events ([] ++ dataFrame "not-json" :: [dataFrame jsonX1])
            StreamOutcome.done)).handlerCalls
        = failures parseKeyNatObject []
            ++ "invalid JSON: not-json" :: failures parseKeyNatObject [dataFrame jsonX1]
      ∧ (readEventSourceStream parseKeyNatObject true
          (SSESource.events ([] ++ dataFrame "not-json" :: [dataFrame jsonX1])
            StreamOutcome.done)).queue.items
        = successes parseKeyNatObject [] ++ successes parseKeyNatObject [dataFrame jsonX1]) :=
  ⟨by decide,
   readEventSourceStream_invalid_frame_skipped parseKeyNatObject []
     [dataFrame jsonX1] (dataFrame "not-json") "invalid JSON: not-json" (by decide)⟩

/-- C4: the output queue of readEventSourceStream holds exactly the
successfully validated payloads of the source frames, in source order
(filterMap of the source list), for every source frame list and every
outcome; dropped invalid frames leave the relative order of the remaining
items unchanged. -/
theorem readEventSourceStream_preserves_order
    (safeParse : String → ParseResult T E) (hasHandler : Bool)
    (frames : List SSEFrame) (outcome : StreamOutcome E) :
    (readEventSourceStream safeParse hasHandler
        (SSESource.events frames outcome)).queue.items
      = successes safeParse frames := by
  cases outcome with
  | done => rw [read_events_done_eq]
  | failed e => rw [read_events_failed_eq]

/-- C5: on the source trace with the valid payload of the spec example and
the malformed payload not-json, the output queue holds exactly the one
parsed value, the pair of key x and value 1, and the error handler is
invoked exactly once, with the failure detail naming the malformed
frame. -/
theorem readEventSourceStream_example_run :
    (readEventSourceStream parseKeyNatObject true
        (SSESource.events [dataFrame jsonX1, dataFrame "not-json"]
          StreamOutcome.done)).queue.items = [("x", 1)]
    ∧ (readEventSourceStream parseKeyNatObject true
        (SSESource.events [dataFrame jsonX1, dataFrame "not-json"]
          StreamOutcome.done)).handlerCalls = ["invalid JSON: not-json"] := by
  constructor <;> decide

/-- C6: when no error handler is supplied, the error handler is never
invoked and the resulting output queue is identical to the one produced
with a handler: validation failures are dropped silently and the stream
continues; and a stream-fatal failure still closes the output queue. -/
theorem readEventSourceStream_no_handler_silent
    (safeParse : String → ParseResult T E) (src : SSESource E) :
    (readEventSourceStream safeParse false src).handlerCalls = []
    ∧ (readEventSourceStream safeParse false src).queue
        = (readEventSourceStream safeParse true src).queue
    ∧ ∀ (frames : List SSEFrame) (e : E),
        (readEventSourceStream safeParse false
            (SSESource.events frames (StreamOutcome.failed e))).queue.state
          = QueueState.closed := by
  refine ⟨?_, ?_, ?_⟩
  · cases src with
    | setupFailed e => simp [readEventSourceStream]
    | events frames outcome =>
      cases outcome with
      | done => rw [read_events_done_eq]; simp
      | failed e => rw [read_events_failed_eq]; simp
  · cases src with
    | setupFailed e => simp [readEventSourceStream]
    | events frames outcome =>
      cases outcome with
      | done => rw [read_events_done_eq, read_events_done_eq]
      | failed e => rw [read_events_failed_eq, read_events_failed_eq]
  · intro frames e
    rw [read_events_failed_eq]

/-- C8: every terminated run of readEventSourceStream closes the output
queue: normal end of the event stream, a failing iteration, and a failing
setup promise all leave the queue in the closed state, whether or not an
error handler was supplied. -/
theorem readEventSourceStream_always_closes
    (safeParse : String → ParseResult T E) (hasHandler : Bool)
    (src : SSESource E) :
    (readEventSourceStream safeParse hasHandler src).queue.state
      = QueueState.closed := by
  cases src with
  | setupFailed e => simp [readEventSourceStream, AsyncQueue.new, AsyncQueue.close]
  | events frames outcome =>
    cases outcome with
    | done => rw [read_events_done_eq]
    | failed e => rw [read_events_failed_eq]

/-- C2 counterexample: on a source whose iteration fails before yielding
any frame, the consumer of the output queue observes a plain
end-of-sequence terminal signal, not an error signal: the code reports the
failure to the error handler and then performs a plain close of the
queue. -/
theorem readEventSourceStream_fatal_plain_close_cex :
    (readEventSourceStream parseKeyNatObject true
        (SSESource.events [] (StreamOutcome.failed "network failure"))).queue.drain
      = some ([], TerminalSignal.endOfSequence) := by
  decide

/-- C2 amended: an underlying decoder or read failure is reported to the
supplied error handler, after the validation failures of the frames read so
far, and the output queue is then closed, terminating the sequence; the
terminal state is a plain close, so the consumer observes end-of-sequence
rather than an error signal. -/
theorem readEventSourceStream_fatal_reported_and_closes
    (safeParse : String → ParseResult T E) (frames : List SSEFrame) (e : E) :
    (readEventSourceStream safeParse true
        (SSESource.events frames (StreamOutcome.failed e))).handlerCalls
      = failures safeParse frames ++ [e]
    ∧ (readEventSourceStream safeParse true
        (SSESource.events frames (StreamOutcome.failed e))).queue.state
      = QueueState.closed := by
  rw [read_events_failed_eq]
  constructor <;> simp

/-- C3 counterexample: on a source that yields one valid frame and then
fails, the consumer receives the buffered item and then a plain
end-of-sequence signal: the termination is not delivered as a final error
on the queue. -/
theorem readEventSourceStream_no_final_error_cex :
    (readEventSourceStream parseKeyNatObject true
        (SSESource.events [dataFrame jsonX1]
          (StreamOutcome.failed "network failure"))).queue.drain
      = some ([("x", 1)], TerminalSignal.endOfSequence) := by
  decide

/-- C3 amended: when the underlying stream fails after some events were
validated and pushed, the consumer still receives every already-queued
validated event, in source order, before the sequence terminates; buffered
items are never truncated, and the termination the consumer observes after
them is a plain end-of-sequence, the failure having been reported through
the error handler channel instead of the queue. -/
theorem readEventSourceStream_no_truncation
    (safeParse : String → ParseResult T E) (hasHandler : Bool)
    (frames : List SSEFrame) (e : E) :
    (readEventSourceStream safeParse hasHandler
        (SSESource.events frames (StreamOutcome.failed e))).queue.drain
      = some (successes safeParse frames, TerminalSignal.endOfSequence) := by
  rw [read_events_failed_eq]
  simp [AsyncQueue.drain]

/-- C7: for a reader whose successive read() calls yield the values vs and
then the done signal, the produced sequence is exactly vs in order and then
ends; the loop performs exactly one read per value plus the final done
read, so the source is traversed in a single forward pass and results after
the done signal are never read. -/
theorem convertReadableStreamToAsyncIterator_yields_all
    (vs : List T) (rest : List (ReadResult T)) :
    convertReadableStreamToAsyncIterator
        (vs.map ReadResult.chunk ++ ReadResult.done :: rest)
      = (vs, vs.length + 1) := by
  induction vs with
  | nil => simp [convertReadableStreamToAsyncIterator]
  | cons v tl ih => simp [convertReadableStreamToAsyncIterator, ih]

/-- C9: a callAPI with more than 96 texts fails with the 96-texts-per-call
error and neither the retry wrapper nor the throttle wrapper nor the
network call is invoked; with at most 96 texts this error is never raised
and the wrapped call proceeds. -/
theorem callAPI_maxTexts_guard (texts : List String) :
    (texts.length > maxTextsPerCall →
      callAPI texts = (Except.error cohereMaxTextsError,
        { retryInvocations := 0, throttleInvocations := 0, networkCalls := 0 }))
    ∧ (texts.length ≤ maxTextsPerCall →
      callAPI texts = (Except.ok (),
        { retryInvocations := 1, throttleInvocations := 1, networkCalls := 1 })) := by
  constructor
  · intro h; simp [callAPI, h]
  · intro h; simp [callAPI, Nat.not_lt.mpr h]

/-- Witness for C9: a 97-element texts array is rejected without invoking
any wrapper, and a singleton array goes through. -/
theorem callAPI_maxTexts_guard_witness :
    callAPI (List.replicate 97 "t")
      = (Except.error cohereMaxTextsError,
         { retryInvocations := 0, throttleInvocations := 0, networkCalls := 0 })
    ∧ callAPI ["t"]
      = (Except.ok (),
         { retryInvocations := 1, throttleInvocations := 1, networkCalls := 1 }) :=
  ⟨(callAPI_maxTexts_guard (List.replicate 97 "t")).1
     (by simp [maxTextsPerCall]),
   (callAPI_maxTexts_guard ["t"]).2 (by simp [maxTextsPerCall])⟩

/-- C10 counterexample: exampleModel is a model the constructor really
produces (first conjunct), yet withSettings applied to it with an update
whose apiKey key is present with value undefined, in an environment
without COHERE_API_KEY, throws the no-API-key error instead of returning a
model with the overlaid settings: the constructor invoked by withSettings
evaluates the apiKey getter, which finds no key in the merged settings and
none in the environment. -/
theorem withSettings_apiKey_undefined_cex :
    CohereTextEmbeddingModel.make none exampleSettings = Except.ok exampleModel
    ∧ CohereTextEmbeddingModel.withSettings none exampleModel
        { model := none, baseUrl := none, apiKey := some none, truncate := none }
      = Except.error cohereNoApiKeyError := by
  constructor <;> rfl

/-- C10 amended: when the merged settings resolve an API key (the merge
carries an apiKey, or the COHERE_API_KEY environment variable is set),
withSettings returns a new model whose settings are the receiver settings
overlaid with the update, with the derived maxTokens and
embeddingDimensions recomputed from the merged model name and the
tokenizer built with the resolved key; every key present in the update
takes precedence and every absent key keeps the receiver value, an empty
update merges to exactly the receiver settings, and when no API key is
resolvable from the merged settings and the environment the call throws
the no-API-key error. The receiver itself is not modified. -/
theorem withSettings_overlays (env : Option String)
    (m : CohereTextEmbeddingModel) (u : CohereSettingsUpdate) :
    (∀ k, resolveApiKey env (objectAssign m.settings u) = some k →
      CohereTextEmbeddingModel.withSettings env m u
        = Except.ok
            { settings := objectAssign m.settings u
              maxTokens := modelMaxTokens (objectAssign m.settings u).model
              embeddingDimensions :=
                modelEmbeddingDimensions (objectAssign m.settings u).model
              tokenizerApiKey := k })
    ∧ (objectAssign m.settings u).model = u.model.getD m.settings.model
    ∧ (objectAssign m.settings u).baseUrl = u.baseUrl.getD m.settings.baseUrl
    ∧ (objectAssign m.settings u).apiKey = u.apiKey.getD m.settings.apiKey
    ∧ (objectAssign m.settings u).truncate = u.truncate.getD m.settings.truncate
    ∧ objectAssign m.settings ⟨none, none, none, none⟩ = m.settings
    ∧ (resolveApiKey env (objectAssign m.settings u) = none →
      CohereTextEmbeddingModel.withSettings env m u
        = Except.error cohereNoApiKeyError) := by
  refine ⟨?_, rfl, rfl, rfl, rfl, ?_, ?_⟩
  · intro k hk
    simp [CohereTextEmbeddingModel.withSettings, CohereTextEmbeddingModel.make, hk]
  · simp [objectAssign]
  · intro hk
    simp [CohereTextEmbeddingModel.withSettings, CohereTextEmbeddingModel.make, hk]

/-- Witness for C10 at a concrete input: the key-resolution hypothesis
holds for exampleModel and exampleUpdate with an empty environment, and
withSettings returns the model built from the overlaid settings with the
tokenizer key taken from the update. -/
theorem withSettings_overlays_witness :
    resolveApiKey none (objectAssign exampleModel.settings exampleUpdate)
      = some "key1"
    ∧ CohereTextEmbeddingModel.withSettings none exampleModel exampleUpdate
      = Except.ok
          { settings := objectAssign exampleModel.settings exampleUpdate
            maxTokens :=
              modelMaxTokens (objectAssign exampleModel.settings exampleUpdate).model
            embeddingDimensions :=
              modelEmbeddingDimensions
                (objectAssign exampleModel.settings exampleUpdate).model
            tokenizerApiKey := "key1" } :=
  ⟨rfl,
   (withSettings_overlays none exampleModel exampleUpdate).1 "key1" rfl⟩

end ModelFusion
